import Mathlib

/-!
Shallow embedding of `src/LinearElasticitySolver.py` (FenicsSolver).

The Python module builds a symbolic weak form for linear elasticity on top of
the dolfin/FEniCS engine.  We embed the decision logic of the module:

* the material model `sigma` (lines 71-76) over concrete `d × d` gradient
  matrices with rational entries;
* the inline Lamé-parameter computation (lines 74-75 / 101-102) with Python
  float-division semantics (`ZeroDivisionError` on a zero denominator);
* the von Mises post-processing `von_Mises` (lines 86-91);
* weak-form assembly `update_boundary_conditions` (lines 93-170): facet
  marking, boundary-area integration, per-type classification of boundary
  conditions, and the produced symbolic terms and Dirichlet constraints;
* the solve dispatcher `solve` (lines 172-178).

Symbolic quantities the engine owns (test functions, measures `dx`/`ds`)
stay symbolic: a weak form is a list of `Term`s, each recording exactly the
data the Python code inserts into the corresponding UFL expression.
-/

set_option maxRecDepth 4000

namespace FenicsSolver

/-- Errors a run of the Python module can surface, plus `degenerateBoundary`,
the error named by the spec (the code itself never raises it). -/
inductive PyError where
  /-- Python `ZeroDivisionError` (float division by zero). -/
  | zeroDivision : PyError
  /-- Python `AttributeError` on reading a never-assigned attribute. -/
  | attributeError : String → PyError
  /-- Python `NameError` on an unbound variable. -/
  | nameError : String → PyError
  /-- `SolverError` raised explicitly by the module, with its message. -/
  | solverError : String → PyError
  /-- Python `TypeError` (operation on a value of the wrong shape). -/
  | typeError : PyError
  /-- The spec's `DegenerateBoundaryError`; no code path constructs it. -/
  | degenerateBoundary : PyError
deriving DecidableEq, Repr

/-- Python float division: raises `ZeroDivisionError` when the denominator is
zero, otherwise returns the quotient. -/
def pydiv (a b : ℚ) : Except PyError ℚ :=
  if b = 0 then .error .zeroDivision else .ok (a / b)

/-! ### Material model (lines 71-91)

`grad(u)` is engine-supplied; we work directly with a gradient matrix `G`.
`sym`, `tr`, `Identity`, `inner` are the UFL tensor-algebra operators,
embedded as rational matrix operations. -/

/-- UFL `sym(G) = (G + Gᵀ)/2`, the symmetric part of a matrix. -/
def sym {d : ℕ} (G : Matrix (Fin d) (Fin d) ℚ) : Matrix (Fin d) (Fin d) ℚ :=
  ((1 : ℚ) / 2) • (G + G.transpose)

/-- Lines 71-76: `sigma(u) = 2·mu·sym(grad(u)) + lmbda·tr(sym(grad(u)))·I`
with `mu = E/(2(1+nu))` and `lmbda = E·nu/((1+nu)(1-2nu))` computed inline. -/
def sigma (E nu : ℚ) {d : ℕ} (G : Matrix (Fin d) (Fin d) ℚ) :
    Matrix (Fin d) (Fin d) ℚ :=
  let mu := E / (2 * (1 + nu))
  let lmbda := E * nu / ((1 + nu) * (1 - 2 * nu))
  (2 * mu) • sym G + (lmbda * Matrix.trace (sym G)) • (1 : Matrix (Fin d) (Fin d) ℚ)

/-- The inline Lamé-parameter computation of lines 74-75 (repeated at lines
82-83 and 101-102), with Python float-division semantics: the code performs
no validation of `E` or `nu`; it only fails, with `ZeroDivisionError`, when a
denominator is exactly zero. -/
def lame_parameters (E nu : ℚ) : Except PyError (ℚ × ℚ) := do
  let mu ← pydiv E (2 * (1 + nu))
  let lmbda ← pydiv (E * nu) ((1 + nu) * (1 - 2 * nu))
  .ok (mu, lmbda)

/-- UFL `inner(M, N)` on matrices: the Frobenius inner product. -/
def frobInner {d : ℕ} (M N : Matrix (Fin d) (Fin d) ℚ) : ℚ :=
  Finset.univ.sum fun i => Finset.univ.sum fun j => M i j * N i j

/-- Line 87: the deviatoric stress `s = sigma(u) - (1/3)·tr(sigma(u))·I`
(the code uses the factor `1/3` independently of the dimension). -/
def deviatoric {d : ℕ} (M : Matrix (Fin d) (Fin d) ℚ) : Matrix (Fin d) (Fin d) ℚ :=
  M - (((1 : ℚ) / 3) * Matrix.trace M) • (1 : Matrix (Fin d) (Fin d) ℚ)

/-- Lines 86-91: the von Mises scalar `sqrt(3/2 · inner(s, s))` with
`s = deviatoric (sigma u)`, evaluated at a gradient matrix `G`.  The final
`project` onto the scalar `P1` space is the engine's projection primitive,
which at a point returns the value itself. -/
noncomputable def von_Mises (E nu : ℚ) {d : ℕ} (G : Matrix (Fin d) (Fin d) ℚ) : ℝ :=
  Real.sqrt (((3 : ℝ) / 2) * ((frobInner (deviatoric (sigma E nu G)) (deviatoric (sigma E nu G)) : ℚ) : ℝ))

/-! ### Boundary conditions and weak-form assembly (lines 93-170) -/

/-- A symbolic boundary direction: a constant vector, or the outward facet
normal `FacetNormal(self.mesh)` bound at line 127. -/
inductive VecExpr where
  | const : List ℚ → VecExpr
  | facetNormal : VecExpr
deriving DecidableEq, Repr

/-- The `value` entry of a boundary-condition dict.  `expr` stands for a
dolfin `Expression`/`Constant` vector (the isinstance test of line 131),
`perAxis` for a per-axis Python list whose entries may be `None`, and
`scalar` for a plain number such as a force magnitude. -/
inductive BCValue where
  | expr : List ℚ → BCValue
  | perAxis : List (Option ℚ) → BCValue
  | scalar : ℚ → BCValue
deriving DecidableEq, Repr

/-- One boundary-condition dict: integer id, geometry predicate over facet
indices (opaque to the Python core), type string, value, and the optional
`direction` entry (`none` when the key is absent). -/
structure BC where
  boundary_id : ℕ
  boundary : ℕ → Bool
  type : String
  value : BCValue
  direction : Option (List ℚ)

/-- The mesh as the assembler sees it: its boundary facet indices together
with each facet's area, so that the engine call
`assemble(Constant(1)*ds(i))` is the total area of the facets marked `i`. -/
structure Mesh where
  facets : List ℕ
  facetArea : ℕ → ℚ

/-- Lines 116-120: `boundary_facets.set_all(0)` followed by
`bc.boundary.mark(boundary_facets, bc.boundary_id)` for every entry in list
order.  A facet ends up carrying the id of the LAST entry whose predicate
selects it, and `0` when none does. -/
def markFacets (bcs : List BC) (f : ℕ) : ℕ :=
  bcs.foldl (fun acc bc => if bc.boundary f then bc.boundary_id else acc) 0

/-- Line 144: the boundary area `assemble(Constant(1)*ds(i, domain=mesh))`,
integrating the constant 1 over the facets marked `i`. -/
def boundaryArea (m : Mesh) (bcs : List BC) (i : ℕ) : ℚ :=
  ((m.facets.filter fun f => markFacets bcs f = i).map m.facetArea).sum

/-- One symbolic contribution to the weak form, recording exactly the data
the Python code inserts into the corresponding UFL integral. -/
inductive Term where
  /-- `inner(sigma(u), grad(v))*dx` (line 104). -/
  | stiffness : Term
  /-- `inner(body_source, v)*dx` (line 107), recording the body source. -/
  | source : List ℚ → Term
  /-- `inner(elasticity*grad(T - T_ref), v)*dx` (line 112), recording
  `(elasticity, T, T_ref)`. -/
  | thermal : ℚ → ℚ → ℚ → Term
  /-- `dot(g, v)*ds(i)` with scalar `g` (line 151). -/
  | dsScalar : ℚ → ℕ → Term
  /-- `dot(g, v)*ds(i)` with vector `g` (line 158). -/
  | dsVec : List ℚ → ℕ → Term
deriving DecidableEq, Repr

/-- One essential (Dirichlet) constraint registered with the engine. -/
inductive Constraint where
  /-- `DirichletBC(V, value, boundary_facets, i)` (line 132). -/
  | vector : List ℚ → ℕ → Constraint
  /-- `DirichletBC(V.sub(axis_i), Constant(disp), boundary_facets, i)`
  (line 138). -/
  | axis : ℕ → ℚ → ℕ → Constraint
deriving DecidableEq, Repr

/-- Python truthiness of an optional number: `None`, `0` and `0.0` are all
falsy — this is the `if disp:` test of line 137. -/
def pyTruthy : Option ℚ → Bool
  | none => false
  | some x => x != 0

/-- Lines 135-140: walk the per-axis value list with a running axis index
`axis_i`, registering one single-axis constraint for each truthy entry;
entries that are `None` or `0` are skipped by `if disp:`. -/
def perAxisConstraints (i : ℕ) : ℕ → List (Option ℚ) → List Constraint
  | _, [] => []
  | ax, disp :: rest =>
    if pyTruthy disp then
      Constraint.axis ax (disp.getD 0) i :: perAxisConstraints i (ax + 1) rest
    else
      perAxisConstraints i (ax + 1) rest

/-- Lines 147-150 (and identically 153-156): the direction the code
computes — the supplied `direction` when the key is present and truthy (a
non-empty list), otherwise the outward facet normal.  The force branch binds
this value to a local variable it never reads afterwards. -/
def suppliedOrNormalDirection (bc : BC) : VecExpr :=
  match bc.direction with
  | some dv => if dv.isEmpty then .facetNormal else .const dv
  | none => .facetNormal

/-- Lines 130-162: classify one boundary-condition entry and return the weak
form terms and Dirichlet constraints it contributes.  `all` is the full
entry list, already used for facet marking (lines 119-120). -/
def applyBC (m : Mesh) (all : List BC) (bc : BC) :
    Except PyError (List Term × List Constraint) :=
  if bc.type = "Dirichlet" ∨ bc.type = "displacement" then
    match bc.value with
    | .expr v => .ok ([], [Constraint.vector v bc.boundary_id])
    | .perAxis l => .ok ([], perAxisConstraints bc.boundary_id 0 l)
    | .scalar _ => .error .typeError     -- iterating over a number raises TypeError
  else if bc.type = "force" then
    match bc.value with
    | .scalar f => do
      let g ← pydiv f (boundaryArea m all bc.boundary_id)
      let _direction_vector := suppliedOrNormalDirection bc  -- bound, never used
      Except.ok ([Term.dsScalar g bc.boundary_id], [])
    | _ => .error .typeError             -- dividing a non-number raises TypeError
  else if bc.type = "stress" ∨ bc.type = "Neumann" then
    let _direction_vector := suppliedOrNormalDirection bc    -- bound, never used
    match bc.value with
    | .expr gv => .ok ([Term.dsVec gv bc.boundary_id], [])
    | .scalar gs => .ok ([Term.dsScalar gs bc.boundary_id], [])
    | .perAxis _ => .error .typeError
  else
    .error (.solverError ("thermal boundary type`" ++ bc.type ++ "` is not supported"))

/-- The boundary loop of lines 128-162 over the entry list, concatenating
each entry's terms and constraints in list order. -/
def processBCs (m : Mesh) (all : List BC) :
    List BC → Except PyError (List Term × List Constraint)
  | [] => .ok ([], [])
  | bc :: rest => do
    let (ts, cs) ← applyBC m all bc
    let (ts2, cs2) ← processBCs m all rest
    Except.ok (ts ++ ts2, cs ++ cs2)

/-- The solver state as weak-form assembly reads it.
`temperature_distribution = none` models the attribute never having been
assigned. -/
structure Solver where
  dimension : ℕ
  elastic_modulus : ℚ
  poisson_ratio : ℚ
  body_source : List ℚ
  temperature_distribution : Option ℚ
  reference_temperature : ℚ
  boundary_conditions : List BC
  mesh : Mesh
  solving_modal : Bool

/-- The case-settings fields the constructor reads; optional fields are
`none` when the corresponding dict key is absent (or, for the body source,
falsy). -/
structure CaseSettings where
  dimension : ℕ
  elastic_modulus : ℚ
  poisson_ratio : ℚ
  body_source : Option (List ℚ)
  temperature_distribution : Option ℚ
  reference_temperature : ℚ
  boundary_conditions : List BC
  mesh : Mesh

/-- Lines 25-42 (`__init__`): the body source defaults to the
dimension-matched zero vector when absent; the `temperature_distribution`
attribute is assigned only when the settings key is present; `solving_modal`
starts `False`.  Modelled from the spec: `SolverBase.__init__` is not under
`src/`, and per the spec's `LoadSpec` the base class supplies no default for
`temperature_distribution`, so a missing key leaves that attribute unset
(`none`); the base-class `translate_value` is kept opaque as the identity. -/
def init (cs : CaseSettings) : Solver where
  dimension := cs.dimension
  elastic_modulus := cs.elastic_modulus
  poisson_ratio := cs.poisson_ratio
  body_source :=
    match cs.body_source with
    | some b => b
    | none => if cs.dimension = 3 then [0, 0, 0] else [0, 0]
  temperature_distribution := cs.temperature_distribution
  reference_temperature := cs.reference_temperature
  boundary_conditions := cs.boundary_conditions
  mesh := cs.mesh
  solving_modal := false

/-- Lines 93-170 (`update_boundary_conditions`): build the weak form as the
term list `stiffness :: integrals_F` (body source, then thermal, then
boundary terms, in code order) together with the Dirichlet constraint list.
After `__init__` the body source is always a (truthy) `Constant`, so the
body term is always appended; reading `self.temperature_distribution` at
line 110 raises `AttributeError` when the attribute was never assigned. -/
def update_boundary_conditions (s : Solver) :
    Except PyError (List Term × List Constraint) := do
  let sourceTerms := [Term.source s.body_source]
  let thermalTerms ←
    match s.temperature_distribution with
    | none => Except.error (PyError.attributeError "temperature_distribution")
    | some t =>
      if t ≠ 0 then
        Except.ok [Term.thermal s.elastic_modulus t s.reference_temperature]
      else
        Except.ok ([] : List Term)
  let (bTerms, cons) ← processBCs s.mesh s.boundary_conditions s.boundary_conditions
  Except.ok (Term.stiffness :: (sourceTerms ++ thermalTerms ++ bTerms), cons)

/-! ### Solve dispatch (lines 172-178) -/

/-- The opaque outcome of the transient/static solve path. -/
inductive SolveOutcome where
  | displacement : SolveOutcome
deriving DecidableEq, Repr

/-- Modelled from the spec: `SolverBase.solve_transient` is not under
`src/`; per the spec's Static mode it assembles and solves the linear system
and returns the displacement field, modelled as an opaque successful
result. -/
def solve_transient (_s : Solver) : SolveOutcome := .displacement

/-- Lines 172-178 (`solve`): run the transient solve, then, when
`solving_modal` is set, evaluate `self.solve_modal(F, bcs)`.  The local
scope of `solve` binds only `u`; neither `F` nor `bcs` is assigned there,
and the module assigns no global of either name, so evaluating the call
arguments raises `NameError` on the unbound name `F` — the dispatcher never
assembles the weak form or the constraints for the modal path. -/
def solve (s : Solver) : Except PyError SolveOutcome :=
  let u := solve_transient s
  if s.solving_modal then
    Except.error (PyError.nameError "F")
  else
    Except.ok u


/-- The boundary-type strings the classifier of lines 130-158 handles. -/
def handledTypes : List String := ["Dirichlet", "displacement", "force", "stress", "Neumann"]


/-! ### Concrete fixtures for witnesses and counterexamples -/

/-- A small mesh: four boundary facets, each of unit area. -/
def mesh1 : Mesh := ⟨[0, 1, 2, 3], fun _ => 1⟩

/-- A force condition whose geometry predicate selects no facet, so the
marked boundary subset has zero area. -/
def bcForceEmpty : BC := ⟨7, fun _ => false, "force", .scalar 1000, none⟩

/-- Solver holding only the zero-area force condition. -/
def solverForceEmpty : Solver :=
  ⟨3, 200, 3/10, [0, 0, 0], some 0, 293, [bcForceEmpty], mesh1, false⟩

/-- A force condition on facet 0 with an explicit direction `[0, 0, 1]`. -/
def bcForceDir : BC := ⟨1, fun f => f = 0, "force", .scalar 1000, some [0, 0, 1]⟩

/-- The same force condition with the direction entry absent. -/
def bcForceNoDir : BC := ⟨1, fun f => f = 0, "force", .scalar 1000, none⟩

/-- Solver holding the directed force condition. -/
def solverForceDir : Solver :=
  ⟨3, 200, 3/10, [0, 0, 0], some 0, 293, [bcForceDir], mesh1, false⟩

/-- Solver holding the direction-free force condition. -/
def solverForceNoDir : Solver :=
  ⟨3, 200, 3/10, [0, 0, 0], some 0, 293, [bcForceNoDir], mesh1, false⟩

/-- A displacement condition prescribing `[0, 5]` per axis: the first axis
component is prescribed as the value `0`, the second as `5`. -/
def bcPerAxis : BC := ⟨2, fun f => f = 0, "Dirichlet", .perAxis [some 0, some 5], none⟩

/-- Solver holding the per-axis displacement condition. -/
def solverPerAxis : Solver :=
  ⟨2, 200, 3/10, [0, 0], some 0, 293, [bcPerAxis], mesh1, false⟩

/-- Two Dirichlet conditions sharing `boundary_id = 1`. -/
def bcShared1 : BC := ⟨1, fun f => f = 0, "Dirichlet", .expr [0, 0, 0], none⟩

/-- Second condition with the same id and an overlapping predicate. -/
def bcShared2 : BC := ⟨1, fun f => f ≤ 1, "Dirichlet", .expr [1, 0, 0], none⟩

/-- Solver holding the two conditions with a duplicated id. -/
def solverSharedId : Solver :=
  ⟨3, 200, 3/10, [0, 0, 0], some 0, 293, [bcShared1, bcShared2], mesh1, false⟩

/-- Two distinct boundaries whose predicates both select facet 0. -/
def bcMarkA : BC := ⟨1, fun f => f = 0, "Dirichlet", .expr [0, 0, 0], none⟩

/-- The later boundary, selecting facet 0 as well, with id 2. -/
def bcMarkB : BC := ⟨2, fun f => f ≤ 1, "Dirichlet", .expr [1, 0, 0], none⟩

/-- A symmetry boundary condition. -/
def bcSymmetry : BC := ⟨3, fun f => f = 2, "symmetry", .expr [0, 0, 0], none⟩

/-- Solver holding only the symmetry condition. -/
def solverSymmetry : Solver :=
  ⟨3, 200, 3/10, [0, 0, 0], some 0, 293, [bcSymmetry], mesh1, false⟩

/-- Solver with the modal flag set. -/
def solverModal : Solver :=
  ⟨3, 200, 3/10, [0, 0, 0], some 0, 293, [], mesh1, true⟩

/-- Case settings without the `temperature_distribution` key. -/
def settingsNoTemp : CaseSettings :=
  ⟨3, 200, 3/10, none, none, 293, [], mesh1⟩

/-- The symmetric part of a scalar multiple of the identity is itself. -/
theorem sym_smul_one {d : ℕ} (c : ℚ) :
    sym (c • (1 : Matrix (Fin d) (Fin d) ℚ)) = c • 1 := by
  simp only [sym, Matrix.transpose_smul, Matrix.transpose_one, ← add_smul, smul_smul]
  congr 1
  ring

/-- C1: for a pure dilation strain `sym(grad u) = c·I`, the stress returned by
`sigma` is the isotropic tensor `c·(2·mu + d·lmbda)·I`, with
`mu = E/(2(1+nu))` and `lmbda = E·nu/((1+nu)(1-2nu))`. -/
theorem sigma_pure_dilation {d : ℕ} (E nu c : ℚ) (G : Matrix (Fin d) (Fin d) ℚ)
    (_hc : c ≠ 0) (h : sym G = c • (1 : Matrix (Fin d) (Fin d) ℚ)) :
    sigma E nu G =
      (c * (2 * (E / (2 * (1 + nu))) +
        (d : ℚ) * (E * nu / ((1 + nu) * (1 - 2 * nu))))) •
        (1 : Matrix (Fin d) (Fin d) ℚ) := by
  simp only [sigma, h, Matrix.trace_smul, Matrix.trace_one, smul_smul, smul_eq_mul,
    Fintype.card_fin]
  rw [← add_smul]
  congr 1
  ring

/-- Witness for C1 at `d = 2`, `E = 10`, `nu = 1/4`, `c = 5`, `G = 5·I`. -/
theorem sigma_pure_dilation_witness :
    ((5 : ℚ) ≠ 0 ∧ sym ((5 : ℚ) • (1 : Matrix (Fin 2) (Fin 2) ℚ)) =
      (5 : ℚ) • (1 : Matrix (Fin 2) (Fin 2) ℚ)) ∧
    sigma 10 (1/4) ((5 : ℚ) • (1 : Matrix (Fin 2) (Fin 2) ℚ)) =
      ((5 : ℚ) * (2 * ((10 : ℚ) / (2 * (1 + 1/4))) +
        ((2 : ℕ) : ℚ) * ((10 : ℚ) * (1/4) / ((1 + 1/4) * (1 - 2 * (1/4)))))) •
        (1 : Matrix (Fin 2) (Fin 2) ℚ) :=
  ⟨⟨by norm_num, sym_smul_one 5⟩,
    sigma_pure_dilation 10 (1/4) 5 _ (by norm_num) (sym_smul_one 5)⟩

/-- C6 counterexample: at `E = -1 ≤ 0` (with `nu = 3/10`) the Lamé computation
returns a value, `(mu, lmbda) = (-5/13, -15/26)`, instead of failing with any
error: the code validates neither `E` nor `nu`. -/
theorem lame_parameters_accepts_nonpositive_modulus :
    lame_parameters (-1) (3/10) = .ok (-5/13, -15/26) := by
  norm_num [lame_parameters, pydiv, Bind.bind, Except.bind]

/-- C6 (amended): for `nu ∈ (-1, 1/2)` and `E > 0` the inline Lamé
computation succeeds with `mu > 0` (and a finite `lmbda`); at the poles
`nu = 1/2` and `nu = -1` it fails with `ZeroDivisionError` (a denominator is
exactly zero), not with any `InvalidMaterialError`; no other input is
rejected. -/
theorem lame_parameters_unvalidated (E nu : ℚ) (hE : 0 < E) (h1 : -1 < nu)
    (h2 : nu < 1/2) :
    (∃ mu lmbda, lame_parameters E nu = .ok (mu, lmbda) ∧ 0 < mu) ∧
    lame_parameters E (1/2) = .error .zeroDivision ∧
    lame_parameters E (-1) = .error .zeroDivision := by
  have hnu : 0 < 1 + nu := by linarith
  have hd1 : (2 : ℚ) * (1 + nu) ≠ 0 := by positivity
  have hd2 : ((1 : ℚ) + nu) * (1 - 2 * nu) ≠ 0 := by
    have h3 : (0 : ℚ) < 1 - 2 * nu := by linarith
    positivity
  refine ⟨⟨E / (2 * (1 + nu)), E * nu / ((1 + nu) * (1 - 2 * nu)), ?_, ?_⟩, ?_, ?_⟩
  · simp [lame_parameters, pydiv, hd1, hd2, Bind.bind, Except.bind]
  · exact div_pos hE (by positivity)
  · norm_num [lame_parameters, pydiv, Bind.bind, Except.bind]
  · norm_num [lame_parameters, pydiv, Bind.bind, Except.bind]

/-- Witness for C6's amended theorem at `E = 1`, `nu = 0`. -/
theorem lame_parameters_unvalidated_witness :
    ((0 : ℚ) < 1 ∧ (-1 : ℚ) < 0 ∧ (0 : ℚ) < 1/2) ∧
    ((∃ mu lmbda, lame_parameters 1 0 = .ok (mu, lmbda) ∧ 0 < mu) ∧
      lame_parameters 1 (1/2) = .error .zeroDivision ∧
      lame_parameters 1 (-1) = .error .zeroDivision) :=
  ⟨by norm_num,
    lame_parameters_unvalidated 1 0 (by norm_num) (by norm_num) (by norm_num)⟩

/-- The stress of the zero gradient is the zero tensor. -/
theorem sigma_zero (E nu : ℚ) (d : ℕ) :
    sigma E nu (0 : Matrix (Fin d) (Fin d) ℚ) = 0 := by
  simp [sigma, sym]

/-- The Frobenius inner product of a matrix with itself is non-negative. -/
theorem frobInner_self_nonneg {d : ℕ} (M : Matrix (Fin d) (Fin d) ℚ) :
    0 ≤ frobInner M M :=
  Finset.sum_nonneg fun i _ => Finset.sum_nonneg fun j _ => mul_self_nonneg (M i j)

/-- C9: the von Mises post-processing returns the scalar
`sqrt(3/2·⟨s,s⟩)` for `s = sigma(u) - (1/3)·tr(sigma(u))·I` — equivalently,
its square is `3/2·⟨s,s⟩` — and at the zero-deformation field (`grad u = 0`)
it is `0` everywhere. -/
theorem von_Mises_deviatoric_and_zero (E nu : ℚ) {d : ℕ}
    (G : Matrix (Fin d) (Fin d) ℚ) :
    von_Mises E nu G ^ 2 =
      ((3 : ℝ) / 2) *
        ((frobInner (deviatoric (sigma E nu G)) (deviatoric (sigma E nu G)) : ℚ) : ℝ) ∧
    von_Mises E nu (0 : Matrix (Fin d) (Fin d) ℚ) = 0 := by
  constructor
  · refine Real.sq_sqrt ?_
    have h := frobInner_self_nonneg (deviatoric (sigma E nu G))
    have h2 : (0 : ℝ) ≤
        ((frobInner (deviatoric (sigma E nu G)) (deviatoric (sigma E nu G)) : ℚ) : ℝ) := by
      exact_mod_cast h
    linarith
  · have hz : deviatoric (sigma E nu (0 : Matrix (Fin d) (Fin d) ℚ)) = 0 := by
      simp [deviatoric, sigma_zero]
    simp [von_Mises, hz, frobInner]

/-! ### C2 — force boundary: area integration without validation -/

/-- C2 counterexample: for the force condition whose marked subset has area
`0 ≤ 0`, assembly fails with `ZeroDivisionError` from `force / area`, not
with the claimed `DegenerateBoundaryError`. -/
theorem force_zero_area_zero_division :
    update_boundary_conditions solverForceEmpty = .error .zeroDivision ∧
    boundaryArea mesh1 [bcForceEmpty] 7 = 0 := by
  constructor
  · simp [update_boundary_conditions, processBCs, applyBC, pydiv, boundaryArea,
      markFacets, mesh1, solverForceEmpty, bcForceEmpty, Bind.bind, Except.bind]
  · simp [boundaryArea, markFacets, mesh1, bcForceEmpty]

/-- C2 (amended): assembly computes the boundary area by integrating the
constant 1 over the marked subset and uses `g = force / area` with no
validation: a zero area surfaces as `ZeroDivisionError`, and any non-zero
area (negative included) silently yields the traction term
`dot(force/area, v)*ds(i)`. -/
theorem force_bc_divides_by_area (m : Mesh) (f : ℚ) (i dim : ℕ) (p : ℕ → Bool)
    (dir : Option (List ℚ)) (bs : List ℚ) (E0 nu0 Tref : ℚ) :
    (boundaryArea m [⟨i, p, "force", .scalar f, dir⟩] i = 0 →
      update_boundary_conditions
          ⟨dim, E0, nu0, bs, some 0, Tref, [⟨i, p, "force", .scalar f, dir⟩], m, false⟩ =
        .error .zeroDivision) ∧
    (boundaryArea m [⟨i, p, "force", .scalar f, dir⟩] i ≠ 0 →
      update_boundary_conditions
          ⟨dim, E0, nu0, bs, some 0, Tref, [⟨i, p, "force", .scalar f, dir⟩], m, false⟩ =
        .ok ([Term.stiffness, Term.source bs,
          Term.dsScalar (f / boundaryArea m [⟨i, p, "force", .scalar f, dir⟩] i) i], [])) := by
  constructor <;> intro h <;>
    simp [update_boundary_conditions, processBCs, applyBC, pydiv, h,
      Bind.bind, Except.bind]

/-- Witness for C2's amended theorem: facet 0 of `mesh1` marked, area 1,
force 1000, yielding the traction term with `g = 1000 / 1`. -/
theorem force_bc_divides_by_area_witness :
    boundaryArea mesh1 [⟨1, fun f => f = 0, "force", .scalar 1000, none⟩] 1 ≠ 0 ∧
    update_boundary_conditions
        ⟨3, 200, 3/10, [0, 0, 0], some 0, 293,
          [⟨1, fun f => f = 0, "force", .scalar 1000, none⟩], mesh1, false⟩ =
      .ok ([Term.stiffness, Term.source [0, 0, 0],
        Term.dsScalar ((1000 : ℚ) / boundaryArea mesh1
          [⟨1, fun f => f = 0, "force", .scalar 1000, none⟩] 1) 1], []) :=
  ⟨by simp [boundaryArea, markFacets, mesh1],
    (force_bc_divides_by_area mesh1 1000 1 3 (fun f => f = 0) none [0, 0, 0]
      200 (3/10) 293).2 (by simp [boundaryArea, markFacets, mesh1])⟩

/-! ### C3 — the force term ignores the direction entry -/

/-- C3 counterexample: two force conditions differing only in their
`direction` entry (an explicit `[0,0,1]` versus none, so their computed
directions differ) produce the same appended weak-form term
`dot(1000, v)*ds(1)`: the appended term does not depend on the direction
field and is not `g·direction`. -/
theorem force_term_direction_counterexample :
    update_boundary_conditions solverForceDir =
      .ok ([Term.stiffness, Term.source [0, 0, 0], Term.dsScalar 1000 1], []) ∧
    update_boundary_conditions solverForceNoDir =
      .ok ([Term.stiffness, Term.source [0, 0, 0], Term.dsScalar 1000 1], []) ∧
    suppliedOrNormalDirection bcForceDir = .const [0, 0, 1] ∧
    suppliedOrNormalDirection bcForceNoDir = .facetNormal := by
  refine ⟨?_, ?_, rfl, rfl⟩ <;>
    simp [update_boundary_conditions, processBCs, applyBC, pydiv, boundaryArea,
      markFacets, mesh1, solverForceDir, solverForceNoDir, bcForceDir, bcForceNoDir,
      Bind.bind, Except.bind]

/-- C3 (amended): the force branch computes the direction (the supplied
vector when present and non-empty, otherwise the outward facet normal) into
a local variable it never uses; the term appended for a force condition is
`dot(g, v)*ds(i)` with the scalar `g = force/area`, identical for any two
values of the `direction` entry. -/
theorem force_term_ignores_direction (m : Mesh) (dim : ℕ) (E0 nu0 Tref : ℚ)
    (bs : List ℚ) (temp : Option ℚ) (f : ℚ) (i : ℕ) (p : ℕ → Bool)
    (dir dir2 : Option (List ℚ)) (dv : List ℚ) :
    update_boundary_conditions
        ⟨dim, E0, nu0, bs, temp, Tref, [⟨i, p, "force", .scalar f, dir⟩], m, false⟩ =
      update_boundary_conditions
        ⟨dim, E0, nu0, bs, temp, Tref, [⟨i, p, "force", .scalar f, dir2⟩], m, false⟩ ∧
    suppliedOrNormalDirection ⟨i, p, "force", .scalar f, none⟩ = .facetNormal ∧
    (dv ≠ [] →
      suppliedOrNormalDirection ⟨i, p, "force", .scalar f, some dv⟩ = .const dv) := by
  refine ⟨rfl, rfl, fun h => ?_⟩
  simp [suppliedOrNormalDirection, h]

/-- Witness for C3's amended theorem at the concrete direction `[0,0,1]`. -/
theorem force_term_ignores_direction_witness :
    ([0, 0, 1] : List ℚ) ≠ [] ∧
    update_boundary_conditions solverForceDir =
      update_boundary_conditions solverForceNoDir ∧
    suppliedOrNormalDirection ⟨1, fun f => f = 0, "force", .scalar 1000, some [0, 0, 1]⟩ =
      .const [0, 0, 1] :=
  ⟨by simp,
    (force_term_ignores_direction mesh1 3 200 (3/10) 293 [0, 0, 0] (some 0) 1000 1
        (fun f => f = 0) (some [0, 0, 1]) none [0, 0, 1]).1,
    (force_term_ignores_direction mesh1 3 200 (3/10) 293 [0, 0, 0] (some 0) 1000 1
        (fun f => f = 0) (some [0, 0, 1]) none [0, 0, 1]).2.2 (by simp)⟩


/-! ### C4 — per-axis Dirichlet values and Python truthiness -/

/-- Membership in the per-axis constraint list, for an arbitrary start axis:
an axis constraint is produced exactly for the positions holding a non-null,
non-zero value. -/
theorem perAxisConstraints_mem (i : ℕ) (x : ℚ) (l : List (Option ℚ)) :
    ∀ (st ax : ℕ),
      Constraint.axis ax x i ∈ perAxisConstraints i st l ↔
        ∃ k, ax = st + k ∧ l[k]? = some (some x) ∧ x ≠ 0 := by
  induction l with
  | nil =>
    intro st ax
    simp [perAxisConstraints]
  | cons d rest ih =>
    intro st ax
    cases d with
    | none =>
      rw [show perAxisConstraints i st (none :: rest) = perAxisConstraints i (st + 1) rest
        from by simp [perAxisConstraints, pyTruthy]]
      rw [ih (st + 1) ax]
      constructor
      · rintro ⟨k, rfl, hk, hx⟩
        exact ⟨k + 1, by omega, by simpa using hk, hx⟩
      · rintro ⟨k, hax, hk, hx⟩
        cases k with
        | zero => simp at hk
        | succ k => exact ⟨k, by omega, by simpa using hk, hx⟩
    | some y =>
      by_cases hy : y = 0
      · subst hy
        rw [show perAxisConstraints i st (some 0 :: rest) = perAxisConstraints i (st + 1) rest
          from by simp [perAxisConstraints, pyTruthy]]
        rw [ih (st + 1) ax]
        constructor
        · rintro ⟨k, rfl, hk, hx⟩
          exact ⟨k + 1, by omega, by simpa using hk, hx⟩
        · rintro ⟨k, hax, hk, hx⟩
          cases k with
          | zero =>
            exfalso
            apply hx
            simp only [List.getElem?_cons_zero, Option.some.injEq] at hk
            exact hk.symm
          | succ k => exact ⟨k, by omega, by simpa using hk, hx⟩
      · rw [show perAxisConstraints i st (some y :: rest) =
            Constraint.axis st y i :: perAxisConstraints i (st + 1) rest
          from by simp [perAxisConstraints, pyTruthy, hy]]
        rw [List.mem_cons, ih (st + 1) ax]
        constructor
        · rintro (heq | ⟨k, rfl, hk, hx⟩)
          · simp only [Constraint.axis.injEq] at heq
            obtain ⟨h1, h2, _⟩ := heq
            exact ⟨0, by omega, by simp [h2], by rw [h2]; exact hy⟩
          · exact ⟨k + 1, by omega, by simpa using hk, hx⟩
        · rintro ⟨k, hax, hk, hx⟩
          cases k with
          | zero =>
            left
            simp only [List.getElem?_cons_zero, Option.some.injEq] at hk
            simp [hax, hk]
          | succ k => right; exact ⟨k, by omega, by simpa using hk, hx⟩

/-- C4 counterexample: the per-axis value `[0, 5]` registers exactly one
constraint — for axis 1 — and none for axis 0, whose prescribed value is
`0`; the claim requires one constraint for every non-null component, `0`
included. -/
theorem per_axis_zero_component_skipped :
    update_boundary_conditions solverPerAxis =
      .ok ([Term.stiffness, Term.source [0, 0]], [Constraint.axis 1 5 2]) := by
  simp [update_boundary_conditions, processBCs, applyBC, perAxisConstraints, pyTruthy,
    solverPerAxis, bcPerAxis, Bind.bind, Except.bind]

/-- C4 (amended): for a per-axis displacement value, assembly registers one
single-axis constraint for each component that is non-null AND non-zero;
components that are null or prescribed as `0` register nothing (the Python
truthiness test `if disp:` treats a prescribed `0` like an omitted axis,
which remains free). -/
theorem per_axis_truthy_constraints (i dim : ℕ) (l : List (Option ℚ))
    (m : Mesh) (p : ℕ → Bool) (bs : List ℚ) (E0 nu0 Tref : ℚ) (ax : ℕ) (x : ℚ) :
    update_boundary_conditions
        ⟨dim, E0, nu0, bs, some 0, Tref, [⟨i, p, "Dirichlet", .perAxis l, none⟩], m, false⟩ =
      .ok ([Term.stiffness, Term.source bs], perAxisConstraints i 0 l) ∧
    (Constraint.axis ax x i ∈ perAxisConstraints i 0 l ↔
      l[ax]? = some (some x) ∧ x ≠ 0) := by
  constructor
  · simp [update_boundary_conditions, processBCs, applyBC, Bind.bind, Except.bind]
  · rw [perAxisConstraints_mem]
    constructor
    · rintro ⟨k, rfl, hk, hx⟩
      simpa using ⟨hk, hx⟩
    · rintro ⟨hk, hx⟩
      exact ⟨ax, by omega, hk, hx⟩

/-- Witness for C4's amended theorem at the per-axis value `[0, 5]`. -/
theorem per_axis_truthy_constraints_witness :
    update_boundary_conditions
        ⟨2, 200, 3/10, [0, 0], some 0, 293,
          [⟨2, fun f => f = 0, "Dirichlet", .perAxis [some 0, some 5], none⟩], mesh1, false⟩ =
      .ok ([Term.stiffness, Term.source [0, 0]],
        perAxisConstraints 2 0 [some 0, some 5]) ∧
    (Constraint.axis 1 5 2 ∈ perAxisConstraints 2 0 [some 0, some 5] ↔
      ([some 0, some 5] : List (Option ℚ))[1]? = some (some 5) ∧ (5 : ℚ) ≠ 0) :=
  per_axis_truthy_constraints 2 2 [some 0, some 5] mesh1 (fun f => f = 0) [0, 0]
    200 (3/10) 293 1 5

/-! ### C5 — unsupported boundary types are rejected -/

/-- An entry whose type is not handled raises `SolverError` naming it. -/
theorem applyBC_unhandled (m : Mesh) (all : List BC) (bc : BC)
    (h : bc.type ∉ handledTypes) :
    applyBC m all bc =
      .error (.solverError ("thermal boundary type`" ++ bc.type ++ "` is not supported")) := by
  simp only [handledTypes, List.mem_cons, List.not_mem_nil, or_false] at h
  push_neg at h
  obtain ⟨h1, h2, h3, h4, h5⟩ := h
  simp [applyBC, h1, h2, h3, h4, h5]

/-- The loop over `l1 ++ l2` runs the loop over `l1`, then over `l2`, and
concatenates the contributions. -/
theorem processBCs_append (m : Mesh) (all : List BC) (l1 l2 : List BC) :
    processBCs m all (l1 ++ l2) = (do
      let (t1, c1) ← processBCs m all l1
      let (t2, c2) ← processBCs m all l2
      Except.ok (t1 ++ t2, c1 ++ c2)) := by
  induction l1 with
  | nil =>
    cases h2 : processBCs m all l2 with
    | error e => simp [processBCs, h2, Bind.bind, Except.bind]
    | ok w => cases w with
      | mk t2 c2 => simp [processBCs, h2, Bind.bind, Except.bind]
  | cons bc rest ih =>
    cases happ : applyBC m all bc with
    | error e => simp [processBCs, happ, Bind.bind, Except.bind]
    | ok v =>
      cases v with
      | mk ts cs =>
        cases hrest : processBCs m all rest with
        | error e => simp [processBCs, happ, hrest, ih, Bind.bind, Except.bind]
        | ok w =>
          cases w with
          | mk t1 c1 =>
            cases h2 : processBCs m all l2 with
            | error e => simp [processBCs, happ, hrest, h2, ih, Bind.bind, Except.bind]
            | ok u =>
              cases u with
              | mk t2 c2 =>
                simp [processBCs, happ, hrest, h2, ih, Bind.bind, Except.bind]

/-- A list containing an unhandled entry never processes successfully. -/
theorem processBCs_error_of_unhandled (m : Mesh) (all : List BC) (bc : BC)
    (htype : bc.type ∉ handledTypes) :
    ∀ l, bc ∈ l → ∃ e, processBCs m all l = .error e := by
  intro l
  induction l with
  | nil => simp
  | cons hd tl ih =>
    intro hmem
    rcases List.mem_cons.mp hmem with rfl | hmem
    · refine ⟨PyError.solverError ("thermal boundary type`" ++ bc.type ++ "` is not supported"), ?_⟩
      simp [processBCs, applyBC_unhandled m all bc htype, Bind.bind, Except.bind]
    · cases happ : applyBC m all hd with
      | error e => exact ⟨e, by simp [processBCs, happ, Bind.bind, Except.bind]⟩
      | ok v =>
        obtain ⟨e, he⟩ := ih hmem
        cases v with
        | mk ts cs => exact ⟨e, by simp [processBCs, happ, he, Bind.bind, Except.bind]⟩

/-- Assembly written as an explicit case split on the temperature attribute
and on the boundary loop. -/
theorem update_boundary_conditions_eq (s : Solver) :
    update_boundary_conditions s =
      match s.temperature_distribution with
      | none => .error (.attributeError "temperature_distribution")
      | some t =>
        match processBCs s.mesh s.boundary_conditions s.boundary_conditions with
        | .error e => .error e
        | .ok (bTerms, cons) =>
          .ok (Term.stiffness ::
            ([Term.source s.body_source] ++
              (if t ≠ 0 then [Term.thermal s.elastic_modulus t s.reference_temperature]
                else []) ++ bTerms), cons) := by
  cases htd : s.temperature_distribution with
  | none => simp [update_boundary_conditions, htd, Bind.bind, Except.bind]
  | some t =>
    cases hp : processBCs s.mesh s.boundary_conditions s.boundary_conditions with
    | error e =>
      by_cases ht : t = 0 <;>
        simp [update_boundary_conditions, htd, hp, ht, Bind.bind, Except.bind]
    | ok v =>
      cases v with
      | mk bTerms cons =>
        by_cases ht : t = 0 <;>
          simp [update_boundary_conditions, htd, hp, ht, Bind.bind, Except.bind]

/-- C5: assembly of a list containing a `symmetry` (or any unrecognized)
entry never returns a weak form — the offending entry contributes no term
and no constraint — and, whenever the entries before it process without
error, the error raised is the `SolverError` naming the offending type. -/
theorem symmetry_bc_rejected (s : Solver) (pre post : List BC) (bc : BC)
    (hsplit : s.boundary_conditions = pre ++ bc :: post)
    (htype : bc.type ∉ handledTypes) :
    (∀ r, update_boundary_conditions s ≠ Except.ok r) ∧
    (∀ t pr, s.temperature_distribution = some t →
      processBCs s.mesh s.boundary_conditions pre = Except.ok pr →
      update_boundary_conditions s =
        Except.error (PyError.solverError
          ("thermal boundary type`" ++ bc.type ++ "` is not supported"))) := by
  have hmem : bc ∈ s.boundary_conditions := by rw [hsplit]; simp
  obtain ⟨e, he⟩ := processBCs_error_of_unhandled s.mesh s.boundary_conditions bc htype
    s.boundary_conditions hmem
  constructor
  · intro r hr
    rw [update_boundary_conditions_eq] at hr
    cases htd : s.temperature_distribution with
    | none => rw [htd] at hr; simp at hr
    | some t => rw [htd, he] at hr; simp at hr
  · intro t pr htemp hpre
    have hstep : processBCs s.mesh s.boundary_conditions s.boundary_conditions =
        processBCs s.mesh s.boundary_conditions (pre ++ bc :: post) :=
      congrArg (processBCs s.mesh s.boundary_conditions) hsplit
    have herr : processBCs s.mesh s.boundary_conditions s.boundary_conditions =
        Except.error (PyError.solverError
          ("thermal boundary type`" ++ bc.type ++ "` is not supported")) := by
      rw [hstep, processBCs_append, hpre]
      cases pr with
      | mk t1 c1 =>
        simp [processBCs, applyBC_unhandled s.mesh s.boundary_conditions bc htype,
          Bind.bind, Except.bind]
    rw [update_boundary_conditions_eq, htemp, herr]

/-- Witness for C5 on the solver holding one symmetry condition. -/
theorem symmetry_bc_rejected_witness :
    (solverSymmetry.boundary_conditions = [] ++ bcSymmetry :: []) ∧
    bcSymmetry.type ∉ handledTypes ∧
    update_boundary_conditions solverSymmetry =
      Except.error (PyError.solverError
        ("thermal boundary type`" ++ bcSymmetry.type ++ "` is not supported")) :=
  ⟨rfl, by simp [bcSymmetry, handledTypes],
    (symmetry_bc_rejected solverSymmetry [] [] bcSymmetry rfl
        (by simp [bcSymmetry, handledTypes])).2 0 ([], []) rfl rfl⟩

/-! ### C7 — duplicate boundary ids and facet re-marking -/

/-- C7 counterexample: two Dirichlet entries sharing `boundary_id = 1`
assemble without any error — both constraints are registered on the same
id — and facet 0, selected by `bcMarkA` (id 1) and by the later `bcMarkB`
(id 2), ends up marked 2: the later mark silently overwrites the earlier
distinct boundary. -/
theorem duplicate_id_not_rejected :
    update_boundary_conditions solverSharedId =
      .ok ([Term.stiffness, Term.source [0, 0, 0]],
        [Constraint.vector [0, 0, 0] 1, Constraint.vector [1, 0, 0] 1]) ∧
    markFacets [bcMarkA, bcMarkB] 0 = 2 ∧
    bcMarkA.boundary_id = 1 ∧ bcMarkA.boundary 0 = true := by
  refine ⟨?_, rfl, rfl, rfl⟩
  simp [update_boundary_conditions, processBCs, applyBC, solverSharedId,
    bcShared1, bcShared2, Bind.bind, Except.bind]

/-- C7 (amended): assembly performs no duplicate-id check — a list whose two
entries share one `boundary_id` assembles error-free, registering both
constraints on that id — and a facet selected by several entries carries the
LAST entry's id: later marks silently overwrite earlier ones. -/
theorem marking_last_wins_duplicates_accepted
    (m : Mesh) (dim : ℕ) (E0 nu0 Tref : ℚ) (bs : List ℚ)
    (i : ℕ) (p1 p2 : ℕ → Bool) (v1 v2 : List ℚ)
    (bcs : List BC) (bc : BC) (f : ℕ) :
    update_boundary_conditions
        ⟨dim, E0, nu0, bs, some 0, Tref,
          [⟨i, p1, "Dirichlet", .expr v1, none⟩, ⟨i, p2, "Dirichlet", .expr v2, none⟩],
          m, false⟩ =
      .ok ([Term.stiffness, Term.source bs],
        [Constraint.vector v1 i, Constraint.vector v2 i]) ∧
    markFacets (bcs ++ [bc]) f =
      (if bc.boundary f then bc.boundary_id else markFacets bcs f) := by
  constructor
  · simp [update_boundary_conditions, processBCs, applyBC, Bind.bind, Except.bind]
  · simp [markFacets, List.foldl_append]

/-! ### C8 — modal dispatch references unbound names -/

/-- C8: when a modal solve is requested (`solving_modal` set), the
dispatcher does not assemble the weak form or the constraint set: it
evaluates `self.solve_modal(F, bcs)` whose argument `F` is an unbound name,
raising `NameError` — no assembled form is ever passed to the eigenvalue
solve. -/
theorem modal_dispatch_unbound_name (s : Solver) (h : s.solving_modal = true) :
    solve s = .error (.nameError "F") := by
  simp [solve, h]

/-- Witness for C8 on the concrete modal-flagged solver. -/
theorem modal_dispatch_unbound_name_witness :
    solverModal.solving_modal = true ∧
    solve solverModal = .error (.nameError "F") :=
  ⟨rfl, modal_dispatch_unbound_name solverModal rfl⟩

/-! ### C10 — unconditional read of the optional temperature attribute -/

/-- C10: when the case settings lack the `temperature_distribution` key, the
constructor leaves the attribute unset, and weak-form assembly — which reads
it unconditionally at line 110 — fails with the attribute-access error
instead of omitting the thermal term. -/
theorem missing_temperature_aborts_assembly (cs : CaseSettings)
    (h : cs.temperature_distribution = none) :
    update_boundary_conditions (init cs) =
      .error (.attributeError "temperature_distribution") := by
  simp [update_boundary_conditions, init, h, Bind.bind, Except.bind]

/-- Witness for C10 on settings without the temperature key. -/
theorem missing_temperature_aborts_assembly_witness :
    settingsNoTemp.temperature_distribution = none ∧
    update_boundary_conditions (init settingsNoTemp) =
      .error (.attributeError "temperature_distribution") :=
  ⟨rfl, missing_temperature_aborts_assembly settingsNoTemp rfl⟩

end FenicsSolver
